import Mathlib

/-!
# micro-lab-template (Go): configuration, error kinds and logger construction

A shallow embedding of the three blocks under `templates/go/internal/blocks`:

* `errors`  : the sentinel errors, the two typed errors and `errors.Is` on them;
* `config`  : `Load` and `getEnvOrDefault`, over an explicit process environment;
* `logging` : `New` and `parseLevel`.

The process environment is explicit state: `Load` takes the environment and the
parsed `.env` file and returns its Go result pair together with the environment
it leaves behind.
-/

namespace MicroLab

/-! ## Package `errors` -/

namespace errors

/-- The three package-level sentinel values of `errors.go`. Each is a separate
`errors.New` allocation, so two sentinels are equal exactly when they are the
same variable; their message text plays no part in the comparison. -/
inductive Sentinel where
  | ErrConfigMissing
  | ErrConfigInvalid
  | ErrLoggingInit
  deriving DecidableEq, Repr

/-- Message text given to `errors.New` for each sentinel. -/
def Sentinel.Error : Sentinel → String
  | .ErrConfigMissing => "config key missing"
  | .ErrConfigInvalid => "config key invalid"
  | .ErrLoggingInit => "logging initialization failed"

/-- The struct `ConfigMissingError`. -/
structure ConfigMissingError where
  Key : String
  deriving DecidableEq, Repr

/-- The struct `ConfigInvalidError`. -/
structure ConfigInvalidError where
  Key : String
  Reason : String
  deriving DecidableEq, Repr

/-- A value of Go's `error` interface as this repository produces it: one of
the sentinels, or a pointer to one of the two typed errors. -/
inductive GoError where
  | sentinel (s : Sentinel)
  | missing (e : ConfigMissingError)
  | invalid (e : ConfigInvalidError)
  deriving DecidableEq, Repr

/-- Method `(*ConfigMissingError).Error`: `fmt.Sprintf("config key missing: %s", e.Key)`. -/
def ConfigMissingError.Error (e : ConfigMissingError) : String :=
  "config key missing: " ++ e.Key

/-- Method `(*ConfigMissingError).Unwrap`. -/
def ConfigMissingError.Unwrap (_e : ConfigMissingError) : GoError :=
  .sentinel .ErrConfigMissing

/-- The text that stands between the two `%s` verbs in the format string of
`(*ConfigInvalidError).Error`, exactly as the source file spells it. -/
def invalidSeparator : String := " â€” "

/-- Method `(*ConfigInvalidError).Error`:
`fmt.Sprintf("config key invalid: %s <sep> %s", e.Key, e.Reason)`. -/
def ConfigInvalidError.Error (e : ConfigInvalidError) : String :=
  "config key invalid: " ++ e.Key ++ invalidSeparator ++ e.Reason

/-- Method `(*ConfigInvalidError).Unwrap`. -/
def ConfigInvalidError.Unwrap (_e : ConfigInvalidError) : GoError :=
  .sentinel .ErrConfigInvalid

/-- The `Error()` method of an `error` value, dispatched on its dynamic type. -/
def GoError.Error : GoError → String
  | .sentinel s => s.Error
  | .missing e => e.Error
  | .invalid e => e.Error

/-- The optional `Unwrap()` method of an `error` value: the sentinels (plain
`errors.New` values) have none. -/
def GoError.Unwrap : GoError → Option GoError
  | .sentinel _ => none
  | .missing e => some e.Unwrap
  | .invalid e => some e.Unwrap

/-- Length of the `Unwrap` chain below an error value. -/
def GoError.depth : GoError → Nat
  | .sentinel _ => 0
  | .missing _ => 1
  | .invalid _ => 1

/-- The comparison `err == target` of `errors.Is` for a sentinel target: interface
values are equal when they hold the same dynamic type and the same pointer, so
only the very same sentinel compares equal. -/
def GoError.same (err : GoError) (target : Sentinel) : Bool :=
  match err with
  | .sentinel s => decide (s = target)
  | .missing _ => false
  | .invalid _ => false

/-- Go's `errors.Is(err, target)` for a sentinel target: walk the `Unwrap`
chain of `err`, answering `true` at the first link equal to `target` and
`false` when the chain ends. None of the types here has an `Is` method. -/
def Is (err : GoError) (target : Sentinel) : Bool :=
  if err.same target then true
  else
    match h : err.Unwrap with
    | none => false
    | some inner => Is inner target
termination_by err.depth
decreasing_by
  cases err with
  | sentinel s => simp [GoError.Unwrap] at h
  | missing e =>
    simp only [GoError.Unwrap, Option.some.injEq] at h
    subst h
    simp [ConfigMissingError.Unwrap, GoError.depth]
  | invalid e =>
    simp only [GoError.Unwrap, Option.some.injEq] at h
    subst h
    simp [ConfigInvalidError.Unwrap, GoError.depth]

end errors

/-! ## Package `config` -/

namespace config

/-- The process environment: the value bound to each variable name, `none` for
a variable that is not set. A variable set to the empty string is `some ""`. -/
abbrev Env := String → Option String

/-- Go's `os.Getenv`: the value of the variable, or the empty string when it is
not set. -/
def Getenv (env : Env) (key : String) : String :=
  (env key).getD ""

/-- Parsed contents of the local `.env` file as a key/value map; `none` when the
file is absent, unreadable or malformed. -/
abbrev DotEnvFile := Option (String → Option String)

/-- Modelled from the spec: the library call `godotenv.Load()` is not part of
the sources. It populates the process environment from the `.env` file,
additively: a variable is set from the file only when it is not already
present, an existing value (the empty string included) is never overwritten,
and a file that cannot be found or read changes nothing. Its error result is
discarded by `Load`, so only the environment it leaves is modelled. -/
def godotenvLoad (env : Env) (file : DotEnvFile) : Env :=
  match file with
  | none => env
  | some entries => fun key =>
    match env key with
    | some v => some v
    | none => entries key

/-- The struct `Config`. -/
structure Config where
  AppEnv : String
  LogLevel : String
  AppName : String
  deriving DecidableEq, Repr

/-- Function `getEnvOrDefault`: the variable when it is non-empty, else the
fallback. -/
def getEnvOrDefault (env : Env) (key fallback : String) : String :=
  let val := Getenv env key
  if val ≠ "" then val else fallback

/-- Function `Load`. The Go result pair `(*Config, error)` is the first
component (`none` for `nil`); the second is the process environment after the
call. -/
def Load (env : Env) (file : DotEnvFile) : (Option Config × Option errors.GoError) × Env :=
  let env1 := godotenvLoad env file
  let cfg : Config :=
    { AppEnv := getEnvOrDefault env1 "APP_ENV" "dev"
      LogLevel := getEnvOrDefault env1 "LOG_LEVEL" "info"
      AppName := getEnvOrDefault env1 "APP_NAME" "__REPO_NAME__" }
  if cfg.LogLevel = "debug" ∨ cfg.LogLevel = "info" ∨ cfg.LogLevel = "warn"
      ∨ cfg.LogLevel = "error" then
    ((some cfg, none), env1)
  else
    ((none, some (.invalid
      { Key := "LOG_LEVEL", Reason := "must be one of: debug, info, warn, error" })), env1)

/-- What the `.env` file supplies for a key: nothing when the file is absent. -/
def fileLookup (file : DotEnvFile) (key : String) : Option String :=
  match file with
  | none => none
  | some entries => entries key

/-- An environment given by a finite list of bindings, first binding wins. -/
def envOf (bindings : List (String × String)) : Env :=
  fun key => bindings.lookup key

end config

/-! ## Package `logging` -/

namespace logging

/-- Go's `slog.Level`, an integer severity. -/
abbrev Level := Int

/-- Constant `slog.LevelDebug`. -/
def LevelDebug : Level := -4
/-- Constant `slog.LevelInfo`. -/
def LevelInfo : Level := 0
/-- Constant `slog.LevelWarn`. -/
def LevelWarn : Level := 4
/-- Constant `slog.LevelError`. -/
def LevelError : Level := 8

/-- Function `parseLevel`. -/
def parseLevel (s : String) : Level :=
  if s = "debug" then LevelDebug
  else if s = "warn" then LevelWarn
  else if s = "error" then LevelError
  else LevelInfo

/-- Which `slog` handler constructor was used. -/
inductive Format where
  | Text
  | JSON
  deriving DecidableEq, Repr

/-- The stream a handler writes to. -/
inductive Writer where
  | Stderr
  deriving DecidableEq, Repr

/-- Go's `slog.HandlerOptions`, reduced to the field that `New` sets. -/
structure HandlerOptions where
  Level : Level
  deriving DecidableEq, Repr

/-- A `slog.Handler` as built by `slog.NewTextHandler` or `slog.NewJSONHandler`. -/
structure Handler where
  format : Format
  writer : Writer
  opts : HandlerOptions
  deriving DecidableEq, Repr

/-- A `*slog.Logger`: its handler and the attributes bound by `With`. -/
structure Logger where
  handler : Handler
  attrs : List (String × String)
  deriving DecidableEq, Repr

/-- Go's `slog.NewTextHandler`. -/
def NewTextHandler (w : Writer) (opts : HandlerOptions) : Handler :=
  { format := .Text, writer := w, opts := opts }

/-- Go's `slog.NewJSONHandler`. -/
def NewJSONHandler (w : Writer) (opts : HandlerOptions) : Handler :=
  { format := .JSON, writer := w, opts := opts }

/-- Go's `(*slog.Logger).With` for one key/value pair. -/
def Logger.With (l : Logger) (key value : String) : Logger :=
  { l with attrs := l.attrs ++ [(key, value)] }

/-- Function `New`. -/
def New (cfg : config.Config) : Logger :=
  let level := parseLevel cfg.LogLevel
  let opts : HandlerOptions := { Level := level }
  let handler :=
    if cfg.AppEnv = "dev" then NewTextHandler .Stderr opts
    else NewJSONHandler .Stderr opts
  Logger.With { handler := handler, attrs := [] } "app" cfg.AppName

end logging

open errors config logging

/-! ## Shared lemmas -/

theorem godotenvLoad_of_some {env : Env} {key v : String} (file : DotEnvFile)
    (h : env key = some v) : godotenvLoad env file key = some v := by
  cases file with
  | none => simpa [godotenvLoad] using h
  | some entries => simp [godotenvLoad, h]

theorem godotenvLoad_of_none {env : Env} {key : String} (file : DotEnvFile)
    (h : env key = none) : godotenvLoad env file key = fileLookup file key := by
  cases file with
  | none => simpa [godotenvLoad, fileLookup] using h
  | some entries => simp [godotenvLoad, fileLookup, h]

theorem godotenvLoad_idem (env : Env) (file : DotEnvFile) :
    godotenvLoad (godotenvLoad env file) file = godotenvLoad env file := by
  cases file with
  | none => rfl
  | some entries =>
    funext key
    cases h : env key <;> simp [godotenvLoad, h]
    cases h2 : entries key <;> simp

theorem getEnvOrDefault_of_some {env : Env} {key v : String} (fallback : String)
    (h : env key = some v) (hv : v ≠ "") : getEnvOrDefault env key fallback = v := by
  simp [getEnvOrDefault, Getenv, h, hv]

theorem getEnvOrDefault_of_empty {env : Env} {key : String} (fallback : String)
    (h : env key = none ∨ env key = some "") :
    getEnvOrDefault env key fallback = fallback := by
  rcases h with h | h <;> simp [getEnvOrDefault, Getenv, h]

theorem Load_env (env : Env) (file : DotEnvFile) :
    (Load env file).2 = godotenvLoad env file := by
  unfold Load
  simp only []
  split <;> rfl

theorem Is_invalid (e : ConfigInvalidError) (target : Sentinel) :
    Is (.invalid e) target = decide (Sentinel.ErrConfigInvalid = target) := by
  rw [Is]
  simp only [GoError.same, GoError.Unwrap, ConfigInvalidError.Unwrap]
  rw [Is]
  simp [GoError.same, GoError.Unwrap]

theorem Is_missing (e : ConfigMissingError) (target : Sentinel) :
    Is (.missing e) target = decide (Sentinel.ErrConfigMissing = target) := by
  rw [Is]
  simp only [GoError.same, GoError.Unwrap, ConfigMissingError.Unwrap]
  rw [Is]
  simp [GoError.same, GoError.Unwrap]

/-- The outcome of `Load` in terms of the log level it resolved. -/
theorem Load_result (env : Env) (file : DotEnvFile) :
    (Load env file).1 =
      if getEnvOrDefault (godotenvLoad env file) "LOG_LEVEL" "info" = "debug"
          ∨ getEnvOrDefault (godotenvLoad env file) "LOG_LEVEL" "info" = "info"
          ∨ getEnvOrDefault (godotenvLoad env file) "LOG_LEVEL" "info" = "warn"
          ∨ getEnvOrDefault (godotenvLoad env file) "LOG_LEVEL" "info" = "error" then
        (some { AppEnv := getEnvOrDefault (godotenvLoad env file) "APP_ENV" "dev"
                LogLevel := getEnvOrDefault (godotenvLoad env file) "LOG_LEVEL" "info"
                AppName := getEnvOrDefault (godotenvLoad env file) "APP_NAME" "__REPO_NAME__" },
          none)
      else
        (none, some (.invalid
          { Key := "LOG_LEVEL", Reason := "must be one of: debug, info, warn, error" })) := by
  unfold Load
  simp only []
  split <;> rfl

/-! ## Claims about `config.Load` -/

/-- C1 (as stated, refuted): the empty string is none of the four level names,
yet with `LOG_LEVEL` set to the empty string `Load` returns a `Config` (with
the default level `"info"`) and a nil error. -/
theorem Load_LOG_LEVEL_empty_succeeds :
    ("" : String) ≠ "debug" ∧ ("" : String) ≠ "info" ∧ ("" : String) ≠ "warn"
      ∧ ("" : String) ≠ "error"
      ∧ envOf [("LOG_LEVEL", "")] "LOG_LEVEL" = some ""
      ∧ (Load (envOf [("LOG_LEVEL", "")]) none).1 =
        (some { AppEnv := "dev", LogLevel := "info", AppName := "__REPO_NAME__" }, none) := by
  decide

/-- C1 (amended): for every non-empty string `s` that is none of `"debug"`,
`"info"`, `"warn"`, `"error"`, with `LOG_LEVEL` set to `s` the call `Load`
returns no `Config` and a `ConfigInvalidError` with key `"LOG_LEVEL"` and the
reason naming the allowed set, and that error matches `ErrConfigInvalid`. -/
theorem Load_rejects_invalid_LOG_LEVEL (env : Env) (file : DotEnvFile) (s : String)
    (hne : s ≠ "") (hd : s ≠ "debug") (hi : s ≠ "info") (hw : s ≠ "warn") (he : s ≠ "error")
    (hset : env "LOG_LEVEL" = some s) :
    (Load env file).1 = (none, some (.invalid
        { Key := "LOG_LEVEL", Reason := "must be one of: debug, info, warn, error" }))
      ∧ Is (.invalid
        { Key := "LOG_LEVEL", Reason := "must be one of: debug, info, warn, error" })
          .ErrConfigInvalid = true := by
  refine ⟨?_, ?_⟩
  · rw [Load_result, getEnvOrDefault_of_some "info" (godotenvLoad_of_some file hset) hne]
    simp [hd, hi, hw, he]
  · rw [Is_invalid]
    decide

theorem Load_rejects_invalid_LOG_LEVEL_witness :
    (Load (envOf [("LOG_LEVEL", "verbose")]) none).1 = (none, some (.invalid
        { Key := "LOG_LEVEL", Reason := "must be one of: debug, info, warn, error" }))
      ∧ Is (.invalid
        { Key := "LOG_LEVEL", Reason := "must be one of: debug, info, warn, error" })
          .ErrConfigInvalid = true :=
  Load_rejects_invalid_LOG_LEVEL (envOf [("LOG_LEVEL", "verbose")]) none "verbose"
    (by decide) (by decide) (by decide) (by decide) (by decide) (by decide)

/-- C2: for every `s` among `"debug"`, `"info"`, `"warn"`, `"error"`, whatever
the other variables and the `.env` file hold, with `LOG_LEVEL` set to `s` the
call `Load` returns a `Config` and a nil error, and its `LogLevel` is `s`. -/
theorem Load_accepts_valid_LOG_LEVEL (env : Env) (file : DotEnvFile) (s : String)
    (hs : s = "debug" ∨ s = "info" ∨ s = "warn" ∨ s = "error")
    (hset : env "LOG_LEVEL" = some s) :
    ∃ cfg : Config, (Load env file).1 = (some cfg, none) ∧ cfg.LogLevel = s := by
  have hne : s ≠ "" := by
    rcases hs with h | h | h | h <;> subst h <;> decide
  refine ⟨{ AppEnv := getEnvOrDefault (godotenvLoad env file) "APP_ENV" "dev"
            LogLevel := s
            AppName := getEnvOrDefault (godotenvLoad env file) "APP_NAME" "__REPO_NAME__" },
    ?_, rfl⟩
  rw [Load_result, getEnvOrDefault_of_some "info" (godotenvLoad_of_some file hset) hne]
  rw [if_pos hs]

theorem Load_accepts_valid_LOG_LEVEL_witness :
    ∃ cfg : Config,
      (Load (envOf [("APP_ENV", "staging"), ("LOG_LEVEL", "warn")])
          (some (envOf [("LOG_LEVEL", "verbose")]))).1 = (some cfg, none)
        ∧ cfg.LogLevel = "warn" :=
  Load_accepts_valid_LOG_LEVEL (envOf [("APP_ENV", "staging"), ("LOG_LEVEL", "warn")])
    (some (envOf [("LOG_LEVEL", "verbose")])) "warn" (by decide) (by decide)

/-- C3: whenever `Load` returns a `Config`, its `LogLevel` is one of `"debug"`,
`"info"`, `"warn"`, `"error"`, and `Load` never returns a `Config` together
with an error. -/
theorem Load_Config_LogLevel_valid (env : Env) (file : DotEnvFile) :
    (∀ cfg : Config, (Load env file).1.1 = some cfg →
        cfg.LogLevel = "debug" ∨ cfg.LogLevel = "info" ∨ cfg.LogLevel = "warn"
          ∨ cfg.LogLevel = "error")
      ∧ ¬ ((Load env file).1.1 ≠ none ∧ (Load env file).1.2 ≠ none) := by
  rw [Load_result]
  split
  · next hvalid =>
    refine ⟨?_, by simp⟩
    intro cfg hcfg
    simp only [Option.some.injEq] at hcfg
    subst hcfg
    exact hvalid
  · exact ⟨by simp, by simp⟩

theorem Load_Config_LogLevel_valid_witness :
    (Load (envOf [("LOG_LEVEL", "error")]) none).1.1 =
        some { AppEnv := "dev", LogLevel := "error", AppName := "__REPO_NAME__" }
      ∧ (("error" : String) = "debug" ∨ ("error" : String) = "info"
          ∨ ("error" : String) = "warn" ∨ ("error" : String) = "error") :=
  ⟨by decide,
    (Load_Config_LogLevel_valid (envOf [("LOG_LEVEL", "error")]) none).1
      { AppEnv := "dev", LogLevel := "error", AppName := "__REPO_NAME__" } (by decide)⟩

/-- A key that is unset or empty in the environment and that the `.env` file
does not supply is still unset or empty after the `.env` loading step. -/
theorem godotenvLoad_unset_or_empty {env : Env} {key : String} {file : DotEnvFile}
    (h : env key = none ∨ env key = some "") (hfile : fileLookup file key = none) :
    godotenvLoad env file key = none ∨ godotenvLoad env file key = some "" := by
  rcases h with h | h
  · left
    rw [godotenvLoad_of_none file h, hfile]
  · right
    exact godotenvLoad_of_some file h

/-- C4: a setting whose key is unset or set to the empty string, and which the
`.env` file does not supply, takes its fixed default: every `Config` that
`Load` returns has `AppEnv = "dev"`, resp. `AppName = "__REPO_NAME__"`; for
`LOG_LEVEL` the call succeeds with `LogLevel = "info"`; and with none of the
three keys set `Load` returns exactly the three defaults and a nil error. -/
theorem Load_defaults (env : Env) (file : DotEnvFile) :
    ((env "APP_ENV" = none ∨ env "APP_ENV" = some "") → fileLookup file "APP_ENV" = none →
        ∀ cfg : Config, (Load env file).1.1 = some cfg → cfg.AppEnv = "dev")
      ∧ ((env "LOG_LEVEL" = none ∨ env "LOG_LEVEL" = some "") →
          fileLookup file "LOG_LEVEL" = none →
          ∃ cfg : Config, (Load env file).1 = (some cfg, none) ∧ cfg.LogLevel = "info")
      ∧ ((env "APP_NAME" = none ∨ env "APP_NAME" = some "") →
          fileLookup file "APP_NAME" = none →
          ∀ cfg : Config, (Load env file).1.1 = some cfg → cfg.AppName = "__REPO_NAME__")
      ∧ (env "APP_ENV" = none → env "LOG_LEVEL" = none → env "APP_NAME" = none →
          fileLookup file "APP_ENV" = none → fileLookup file "LOG_LEVEL" = none →
          fileLookup file "APP_NAME" = none →
          (Load env file).1 =
            (some { AppEnv := "dev", LogLevel := "info", AppName := "__REPO_NAME__" },
              none)) := by
  refine ⟨?_, ?_, ?_, ?_⟩
  · intro h hfile cfg hcfg
    rw [Load_result] at hcfg
    split at hcfg
    · simp only [Option.some.injEq] at hcfg
      subst hcfg
      exact getEnvOrDefault_of_empty "dev" (godotenvLoad_unset_or_empty h hfile)
    · simp at hcfg
  · intro h hfile
    have hl := getEnvOrDefault_of_empty "info" (godotenvLoad_unset_or_empty h hfile)
    refine ⟨{ AppEnv := getEnvOrDefault (godotenvLoad env file) "APP_ENV" "dev"
              LogLevel := "info"
              AppName := getEnvOrDefault (godotenvLoad env file) "APP_NAME" "__REPO_NAME__" },
      ?_, rfl⟩
    rw [Load_result, hl]
    simp
  · intro h hfile cfg hcfg
    rw [Load_result] at hcfg
    split at hcfg
    · simp only [Option.some.injEq] at hcfg
      subst hcfg
      exact getEnvOrDefault_of_empty "__REPO_NAME__" (godotenvLoad_unset_or_empty h hfile)
    · simp at hcfg
  · intro h1 h2 h3 f1 f2 f3
    rw [Load_result,
      getEnvOrDefault_of_empty "dev" (godotenvLoad_unset_or_empty (Or.inl h1) f1),
      getEnvOrDefault_of_empty "info" (godotenvLoad_unset_or_empty (Or.inl h2) f2),
      getEnvOrDefault_of_empty "__REPO_NAME__" (godotenvLoad_unset_or_empty (Or.inl h3) f3)]
    simp

theorem Load_defaults_witness :
    (Load (envOf []) none).1 =
        (some { AppEnv := "dev", LogLevel := "info", AppName := "__REPO_NAME__" }, none)
      ∧ (∃ cfg : Config,
          (Load (envOf [("LOG_LEVEL", ""), ("APP_ENV", "qa")])
              (some (envOf [("APP_NAME", "lab")]))).1 = (some cfg, none)
            ∧ cfg.LogLevel = "info") :=
  ⟨(Load_defaults (envOf []) none).2.2.2 (by decide) (by decide) (by decide)
      (by decide) (by decide) (by decide),
    (Load_defaults (envOf [("LOG_LEVEL", ""), ("APP_ENV", "qa")])
      (some (envOf [("APP_NAME", "lab")]))).2.1 (by decide) (by decide)⟩

/-- C5: for each of the three settings and every non-empty string `v`, with the
setting's key set to `v`, every `Config` that `Load` returns carries `v` itself
in the corresponding field, unchanged. -/
theorem Load_verbatim (env : Env) (file : DotEnvFile) (v : String) (hv : v ≠ "") :
    (env "APP_ENV" = some v →
        ∀ cfg : Config, (Load env file).1.1 = some cfg → cfg.AppEnv = v)
      ∧ (env "LOG_LEVEL" = some v →
        ∀ cfg : Config, (Load env file).1.1 = some cfg → cfg.LogLevel = v)
      ∧ (env "APP_NAME" = some v →
        ∀ cfg : Config, (Load env file).1.1 = some cfg → cfg.AppName = v) := by
  refine ⟨?_, ?_, ?_⟩ <;>
  · intro hset cfg hcfg
    rw [Load_result] at hcfg
    split at hcfg
    · simp only [Option.some.injEq] at hcfg
      subst hcfg
      exact getEnvOrDefault_of_some _ (godotenvLoad_of_some file hset) hv
    · simp at hcfg

theorem Load_verbatim_witness :
    (Load (envOf [("APP_ENV", " Production ")]) none).1.1 =
        some { AppEnv := " Production ", LogLevel := "info", AppName := "__REPO_NAME__" }
      ∧ ({ AppEnv := " Production ", LogLevel := "info", AppName := "__REPO_NAME__" }
          : Config).AppEnv = " Production "
      ∧ (Load (envOf [("APP_ENV", "production")]) none).1.1 =
        some { AppEnv := "production", LogLevel := "info", AppName := "__REPO_NAME__" } :=
  ⟨by decide,
    (Load_verbatim (envOf [("APP_ENV", " Production ")]) none " Production " (by decide)).1
      (by decide)
      { AppEnv := " Production ", LogLevel := "info", AppName := "__REPO_NAME__" }
      (by decide),
    by decide⟩

/-- C10: calling `Load` a second time, in the environment the first call left
behind and with the same `.env` file, gives the same result pair as the first
call (the same `Config` field by field, or the same error), and leaves the
environment as the first call left it; the first call only adds variables:
every variable that was set keeps its value. -/
theorem Load_repeatable (env : Env) (file : DotEnvFile) :
    (Load (Load env file).2 file).1 = (Load env file).1
      ∧ (Load (Load env file).2 file).2 = (Load env file).2
      ∧ ∀ key v, env key = some v → (Load env file).2 key = some v := by
  refine ⟨?_, ?_, ?_⟩
  · rw [Load_result, Load_result, Load_env, godotenvLoad_idem]
  · rw [Load_env, Load_env, godotenvLoad_idem]
  · intro key v h
    rw [Load_env]
    exact godotenvLoad_of_some file h

theorem Load_repeatable_witness :
    (Load (envOf [("APP_ENV", "production")])
        (some (envOf [("APP_ENV", "dev"), ("LOG_LEVEL", "debug")]))).1 =
        (some { AppEnv := "production", LogLevel := "debug", AppName := "__REPO_NAME__" },
          none)
      ∧ (Load (Load (envOf [("APP_ENV", "production")])
          (some (envOf [("APP_ENV", "dev"), ("LOG_LEVEL", "debug")]))).2
          (some (envOf [("APP_ENV", "dev"), ("LOG_LEVEL", "debug")]))).1 =
        (Load (envOf [("APP_ENV", "production")])
          (some (envOf [("APP_ENV", "dev"), ("LOG_LEVEL", "debug")]))).1
      ∧ (Load (envOf [("APP_ENV", "production")])
          (some (envOf [("APP_ENV", "dev"), ("LOG_LEVEL", "debug")]))).2 "APP_ENV" =
        some "production" :=
  ⟨by decide,
    (Load_repeatable (envOf [("APP_ENV", "production")])
      (some (envOf [("APP_ENV", "dev"), ("LOG_LEVEL", "debug")]))).1,
    (Load_repeatable (envOf [("APP_ENV", "production")])
      (some (envOf [("APP_ENV", "dev"), ("LOG_LEVEL", "debug")]))).2.2
      "APP_ENV" "production" (by decide)⟩

/-! ## Claims about `logging` -/

/-- C6: `parseLevel` maps `"debug"`, `"info"`, `"warn"`, `"error"` to
`LevelDebug`, `LevelInfo`, `LevelWarn`, `LevelError`, maps every other string
(the empty string, `"unknown"` and `"DEBUG"` among them) to `LevelInfo`, and is
strictly increasing along debug, info, warn, error. -/
theorem parseLevel_total_ordered :
    parseLevel "debug" = LevelDebug ∧ parseLevel "info" = LevelInfo
      ∧ parseLevel "warn" = LevelWarn ∧ parseLevel "error" = LevelError
      ∧ (∀ s : String, s ≠ "debug" → s ≠ "info" → s ≠ "warn" → s ≠ "error" →
          parseLevel s = LevelInfo)
      ∧ parseLevel "" = LevelInfo ∧ parseLevel "unknown" = LevelInfo
      ∧ parseLevel "DEBUG" = LevelInfo
      ∧ parseLevel "debug" < parseLevel "info" ∧ parseLevel "info" < parseLevel "warn"
      ∧ parseLevel "warn" < parseLevel "error" := by
  refine ⟨by decide, by decide, by decide, by decide, ?_, by decide, by decide, by decide,
    by decide, by decide, by decide⟩
  intro s hd _ hw he
  simp [parseLevel, hd, hw, he]

theorem parseLevel_total_ordered_witness : parseLevel "Warn" = LevelInfo :=
  parseLevel_total_ordered.2.2.2.2.1 "Warn" (by decide) (by decide) (by decide) (by decide)

/-- C7: the handler that `New` builds is the text handler exactly when
`cfg.AppEnv` is `"dev"` and the JSON handler for every other value; two
configs with the same `AppEnv` get the same format whatever their `LogLevel`
and `AppName`. -/
theorem New_format_by_AppEnv (cfg : Config) :
    ((New cfg).handler.format = Format.Text ↔ cfg.AppEnv = "dev")
      ∧ ((New cfg).handler.format = Format.JSON ↔ cfg.AppEnv ≠ "dev")
      ∧ (∀ cfg2 : Config, cfg2.AppEnv = cfg.AppEnv →
          (New cfg2).handler.format = (New cfg).handler.format) := by
  have key : ∀ c : Config,
      (New c).handler.format = if c.AppEnv = "dev" then Format.Text else Format.JSON := by
    intro c
    unfold New
    simp only [Logger.With]
    split <;> rfl
  refine ⟨?_, ?_, ?_⟩
  · rw [key]
    split <;> simp [*]
  · rw [key]
    split <;> simp [*]
  · intro cfg2 h
    rw [key, key, h]

theorem New_format_by_AppEnv_witness :
    (New { AppEnv := "dev", LogLevel := "info", AppName := "test-app" }).handler.format
        = Format.Text
      ∧ (New { AppEnv := "", LogLevel := "info", AppName := "a" }).handler.format
        = Format.JSON
      ∧ (New { AppEnv := "production", LogLevel := "debug", AppName := "a" }).handler.format
        = (New { AppEnv := "production", LogLevel := "error", AppName := "b" }).handler.format :=
  ⟨(New_format_by_AppEnv { AppEnv := "dev", LogLevel := "info", AppName := "test-app" }).1.2
      (by decide),
    (New_format_by_AppEnv { AppEnv := "", LogLevel := "info", AppName := "a" }).2.1.2
      (by decide),
    (New_format_by_AppEnv { AppEnv := "production", LogLevel := "error", AppName := "b" }).2.2
      { AppEnv := "production", LogLevel := "debug", AppName := "a" } (by decide)⟩

/-! ## Claims about `errors` -/

/-- C8: for every key and reason, a `ConfigInvalidError` unwraps to
`ErrConfigInvalid`, matches it under `errors.Is` and does not match
`ErrConfigMissing`; for every key, a `ConfigMissingError` unwraps to
`ErrConfigMissing`, matches it and does not match `ErrConfigInvalid`. -/
theorem error_category_by_sentinel (Key Reason : String) :
    (ConfigInvalidError.mk Key Reason).Unwrap = GoError.sentinel .ErrConfigInvalid
      ∧ Is (.invalid { Key := Key, Reason := Reason }) .ErrConfigInvalid = true
      ∧ Is (.invalid { Key := Key, Reason := Reason }) .ErrConfigMissing = false
      ∧ (ConfigMissingError.mk Key).Unwrap = GoError.sentinel .ErrConfigMissing
      ∧ Is (.missing { Key := Key }) .ErrConfigMissing = true
      ∧ Is (.missing { Key := Key }) .ErrConfigInvalid = false := by
  refine ⟨rfl, ?_, ?_, rfl, ?_, ?_⟩
  · rw [Is_invalid]; decide
  · rw [Is_invalid]; decide
  · rw [Is_missing]; decide
  · rw [Is_missing]; decide

/-- C9: for every key and reason, the message of a `ConfigInvalidError` starts
with `"config key invalid: "`, continues with the key, and ends with the
reason, so it contains both, the key before the reason; the message of a
`ConfigMissingError` is `"config key missing: "` followed by the key. -/
theorem error_messages (Key Reason : String) :
    "config key invalid: ".toList <+: (ConfigInvalidError.mk Key Reason).Error.toList
      ∧ Key.toList <:+: (ConfigInvalidError.mk Key Reason).Error.toList
      ∧ Reason.toList <:+ (ConfigInvalidError.mk Key Reason).Error.toList
      ∧ (∃ mid : List Char, (ConfigInvalidError.mk Key Reason).Error.toList =
          "config key invalid: ".toList ++ Key.toList ++ mid ++ Reason.toList)
      ∧ (ConfigMissingError.mk Key).Error = "config key missing: " ++ Key := by
  have h : (ConfigInvalidError.mk Key Reason).Error.toList =
      "config key invalid: ".toList ++ Key.toList ++ invalidSeparator.toList
        ++ Reason.toList := by
    simp [ConfigInvalidError.Error, String.toList]
  refine ⟨?_, ?_, ?_, ?_, rfl⟩
  · rw [h]
    exact ⟨Key.toList ++ invalidSeparator.toList ++ Reason.toList, by simp⟩
  · rw [h]
    exact ⟨"config key invalid: ".toList, invalidSeparator.toList ++ Reason.toList, by simp⟩
  · rw [h]
    exact ⟨"config key invalid: ".toList ++ Key.toList ++ invalidSeparator.toList, rfl⟩
  · exact ⟨invalidSeparator.toList, h⟩

end MicroLab
